import Mathlib

/-!
Shallow embedding of the `AudioDeviceMonitor` class from `src/index.ts` of
the af-win-audio package: the stdout data handler (JSON decode, change
detection, event emission), the command methods (`upVolume`, `downVolume`,
`setStepVolume`), the `stop` method with its escalation timer, and the
constructor's option handling.  JavaScript objects produced by `JSON.parse`
are modelled as insertion-ordered association lists of primitive values,
matching `for...in` iteration order and `!==` comparison on primitives.
-/

namespace AfWinAudio

/-- A JSON primitive value as it appears in the device records of the wire
protocol (`id`/`name` are strings, `volume` a number, `muted` a boolean). -/
inductive JVal where
  | str (s : String)
  | num (n : Int)
  | bool (b : Bool)
deriving DecidableEq, Repr

/-- A JavaScript object as produced by `JSON.parse` on a flat record:
an insertion-ordered list of key/value pairs with distinct keys. -/
abbrev Obj := List (String × JVal)

/-- JavaScript string conversion of a primitive, as used by the template
literal in `checkChange`'s alert message. -/
def jToString : JVal → String
  | .str s => s
  | .num n => toString n
  | .bool b => if b then "true" else "false"

/-- Property lookup `o[k]`: `some v` when the key is present, `none` for
JavaScript's `undefined`. -/
def lookupObj : Obj → String → Option JVal
  | [], _ => none
  | (k', v) :: rest, k => if k' = k then some v else lookupObj rest k

/-- Assignment `o[k] = v` on a JavaScript object: overwrite in place when
the key exists, else append (insertion order). -/
def insertObj : Obj → String → JVal → Obj
  | [], k, v => [(k, v)]
  | (k', v') :: rest, k, v =>
      if k' = k then (k, v) :: rest else (k', v') :: insertObj rest k v

/-! ### A model of `JSON.parse` on the protocol's subset

The wire protocol delivers one flat JSON object per record: string,
integer and boolean members, no nesting, no escape sequences.  The parser
below models `JSON.parse` on exactly that subset (leading and trailing
whitespace tolerated, anything else a parse failure, as `JSON.parse`
throws on every malformed input considered here). -/

/-- JSON whitespace. -/
def isWs (c : Char) : Bool := c = ' ' || c = '\n' || c = '\t' || c = '\r'

/-- Drop leading JSON whitespace. -/
def skipWs : List Char → List Char
  | [] => []
  | c :: cs => if isWs c then skipWs cs else c :: cs

/-- Parse the body of a string literal after its opening quote; escape
sequences are outside the modelled subset. -/
def parseStrChars : List Char → Option (List Char × List Char)
  | [] => none
  | c :: cs =>
    if c = '"' then some ([], cs)
    else if c = '\\' then none
    else match parseStrChars cs with
      | some (s, rest) => some (c :: s, rest)
      | none => none

/-- Split a maximal run of decimal digits off the front. -/
def takeDigits : List Char → List Char × List Char
  | [] => ([], [])
  | c :: cs =>
    if c.isDigit then
      let p := takeDigits cs
      (c :: p.1, p.2)
    else ([], c :: cs)

/-- Decimal value of a digit run. -/
def digitsToNat (ds : List Char) : Nat :=
  ds.foldl (fun a c => a * 10 + (c.toNat - 48)) 0

/-- Parse an integer literal (optional leading minus). -/
def parseNum : List Char → Option (Int × List Char)
  | [] => none
  | c :: cs =>
    if c = '-' then
      match takeDigits cs with
      | ([], _) => none
      | (ds, r) => some (-(digitsToNat ds : Int), r)
    else if c.isDigit then
      let p := takeDigits (c :: cs)
      some ((digitsToNat p.1 : Int), p.2)
    else none

/-- Parse an exact literal such as `true` or `false`. -/
def parseLit (lit : List Char) (cs : List Char) : Option (List Char) :=
  if lit.isPrefixOf cs then some (cs.drop lit.length) else none

/-- Parse one member value: a string, `true`, `false` or an integer. -/
def parseValue (cs : List Char) : Option (JVal × List Char) :=
  match cs with
  | [] => none
  | c :: rest =>
    if c = '"' then
      (parseStrChars rest).map (fun p => (.str (String.mk p.1), p.2))
    else if c = 't' then
      (parseLit ['r', 'u', 'e'] rest).map (fun r => (.bool true, r))
    else if c = 'f' then
      (parseLit ['a', 'l', 's', 'e'] rest).map (fun r => (.bool false, r))
    else
      (parseNum cs).map (fun p => (.num p.1, p.2))

/-- Parse the members of an object after its opening brace, fuelled by the
input length; duplicate keys keep the last value at the first position,
as `JSON.parse` does. -/
def parseMembers : Nat → Obj → List Char → Option (Obj × List Char)
  | 0, _, _ => none
  | fuel + 1, acc, cs =>
    match skipWs cs with
    | '"' :: rest =>
      match parseStrChars rest with
      | none => none
      | some (kcs, r1) =>
        match skipWs r1 with
        | ':' :: r3 =>
          match parseValue (skipWs r3) with
          | none => none
          | some (v, r4) =>
            match skipWs r4 with
            | ',' :: r6 => parseMembers fuel (insertObj acc (String.mk kcs) v) r6
            | '}' :: r6 => some (insertObj acc (String.mk kcs) v, r6)
            | _ => none
        | _ => none
    | _ => none

/-- Model of `JSON.parse(data.toString())` on the protocol subset: one flat
object possibly surrounded by whitespace; every other input fails, as the
real call throws. -/
def parseJson (s : String) : Option Obj :=
  match skipWs s.toList with
  | '{' :: rest =>
    match skipWs rest with
    | '}' :: r2 => if (skipWs r2).isEmpty then some [] else none
    | _ =>
      match parseMembers (s.length + 1) [] rest with
      | some (o, r2) => if (skipWs r2).isEmpty then some o else none
      | none => none
  | _ => none

/-! ### The monitor -/

/-- An event delivered through the class's `CustomEventEmitter` (the five
event names of `AudioMonitorEvents`). -/
inductive Event where
  | change (dev : Obj) (mask : List (String × Bool))
  | alert (msg : String)
  | error (msg : String)
  | exit (msg : String)
  | forceExit (msg : String)
deriving DecidableEq, Repr

/-- A POSIX signal sent through `ChildProcess.kill`. -/
inductive Signal where
  | SIGTERM
  | SIGKILL
  | SIGINT
deriving DecidableEq, Repr

/-- The spawned child process handle; `killed` is Node's
`ChildProcess.killed` flag, set as soon as `kill()` delivers a signal
(not when the process actually exits). -/
structure ChildProcess where
  killed : Bool
deriving DecidableEq, Repr

/-- The change mask, a JavaScript object with boolean values; like any JS
object it can acquire keys beyond the four of `IChange`. -/
abbrev Mask := List (String × Bool)

/-- Mark `mask[k] = true`: overwrite when present, append otherwise. -/
def setMask : Mask → String → Mask
  | [], k => [(k, true)]
  | (k', b) :: rest, k =>
      if k' = k then (k, true) :: rest else (k', b) :: setMask rest k

/-- The all-false mask `defaultChange()` resets `deviceChange` to. -/
def defaultMask : Mask :=
  [("id", false), ("name", false), ("volume", false), ("muted", false)]

/-- The placeholder the `deviceInfo` field is initialised with:
`{ id: '', name: '', volume: 0, muted: false }`. -/
def initDeviceInfo : Obj :=
  [("id", .str ""), ("name", .str ""), ("volume", .num 0), ("muted", .bool false)]

/-- The mutable fields of an `AudioDeviceMonitor` instance relevant to the
pipeline and command methods.  `audioDeviceProcess = none` models the
`null` handle; when a process exists its `stdin`/`stdout` streams are
taken to be available, as they are for a successfully spawned child. -/
structure MonitorState where
  audioDeviceProcess : Option ChildProcess
  deviceInfo : Obj
  deviceChange : Mask
  delay : Int
  step : Int
deriving DecidableEq, Repr

/-- `checkChange(newDeviceInfo)`: for each key of the incoming object (in
insertion order, as `for...in` iterates), mark the mask entry true when
the value differs (`!==`) from the stored `deviceInfo`'s — a missing key
reads as `undefined`, which differs from every JSON value.  Returns the
updated mask together with the alert events `printMessage` emits. -/
def checkChange : (newDeviceInfo : Obj) → (deviceInfo : Obj) → Mask → Mask × List Event
  | [], _, mask => (mask, [])
  | (k, v) :: rest, dev, mask =>
    if lookupObj dev k ≠ some v then
      let r := checkChange rest dev (setMask mask k)
      (r.1, Event.alert (jToString v ++ " изменилось - true") :: r.2)
    else
      checkChange rest dev mask

/-- The body of the stdout handler after a successful `JSON.parse`:
`checkChange`, store the snapshot, emit `change` with the snapshot and the
updated mask, then `defaultChange()` resets the mask. -/
def applyRecord (st : MonitorState) (deviceInfo : Obj) : MonitorState × List Event :=
  let r := checkChange deviceInfo st.deviceInfo st.deviceChange
  ({ st with deviceInfo := deviceInfo, deviceChange := defaultMask },
   r.2 ++ [Event.change deviceInfo r.1])

/-- The `stdout.on('data', ...)` handler: parse the whole chunk as JSON;
on success run the diff-and-emit cycle, on failure emit one error event
(`Не удалось обработать данные`) and leave all state untouched. -/
def onStdoutData (st : MonitorState) (data : String) : MonitorState × List Event :=
  match parseJson data with
  | some deviceInfo => applyRecord st deviceInfo
  | none => (st, [Event.error ("Не удалось обработать данные: " ++ data)])

/-- Deliver a sequence of stdout chunks in order, concatenating the
emitted events. -/
def processChunks (st : MonitorState) : List String → MonitorState × List Event
  | [] => (st, [])
  | c :: rest =>
    let r1 := onStdoutData st c
    let r2 := processChunks r1.1 rest
    (r2.1, r1.2 ++ r2.2)

/-- The snapshots carried by the `change` events of a trace. -/
def changeRecords (evs : List Event) : List Obj :=
  evs.filterMap (fun e => match e with | .change d _ => some d | _ => none)

/-- The masks carried by the `change` events of a trace. -/
def changeMasks (evs : List Event) : List Mask :=
  evs.filterMap (fun e => match e with | .change _ m => some m | _ => none)

/-- How many `error` events a trace contains. -/
def errorCount (evs : List Event) : Nat :=
  (evs.filter (fun e => match e with | .error _ => true | _ => false)).length

/-! ### Command methods and lifecycle -/

/-- `upVolume(step?)`: when a process with a live stdin exists, a truthy
step (present and nonzero) writes `upVolume <step>\n`, a falsy one writes
the bare `upVolume\n`; without a process only an error event is emitted.
Returns (state, events, lines written to stdin). -/
def upVolume (st : MonitorState) (step : Option Int) :
    MonitorState × List Event × List String :=
  match st.audioDeviceProcess with
  | none => (st, [Event.error "Процесс не запущен или стандартный ввод недоступен."], [])
  | some _ =>
    match step with
    | some s =>
      if s ≠ 0 then
        (st, [Event.alert ("Увеличить громкость на " ++ toString s ++ ".")],
         ["upVolume " ++ toString s ++ "\n"])
      else
        (st, [Event.alert "Увеличить громкость."], ["upVolume\n"])
    | none => (st, [Event.alert "Увеличить громкость."], ["upVolume\n"])

/-- `downVolume(step?)`, symmetric to `upVolume`. -/
def downVolume (st : MonitorState) (step : Option Int) :
    MonitorState × List Event × List String :=
  match st.audioDeviceProcess with
  | none => (st, [Event.error "Процесс не запущен или стандартный ввод недоступен."], [])
  | some _ =>
    match step with
    | some s =>
      if s ≠ 0 then
        (st, [Event.alert ("Уменьшить громкость на " ++ toString s ++ ".")],
         ["downVolume " ++ toString s ++ "\n"])
      else
        (st, [Event.alert "Уменьшить громкость."], ["downVolume\n"])
    | none => (st, [Event.alert "Уменьшить громкость."], ["downVolume\n"])

/-- `setStepVolume(newStep)` (reached through `updateSettings`): validates
the range `0 < newStep ≤ 100` before writing `setStepVolume <n>\n`;
out-of-range steps produce an error event and no write. -/
def setStepVolume (st : MonitorState) (newStep : Int) :
    MonitorState × List Event × List String :=
  match st.audioDeviceProcess with
  | none => (st, [Event.error "Процесс не запущен или стандартный ввод недоступен."], [])
  | some _ =>
    if 0 < newStep ∧ newStep ≤ 100 then
      ({ st with step := newStep },
       [Event.alert ("Шаг громкости обновлён до " ++ toString newStep ++ ".")],
       ["setStepVolume " ++ toString newStep ++ "\n"])
    else
      (st, [Event.error "Шаг громкости должен быть больше в диапозоне от 1 до 100."], [])

/-- `stop()`: with a live process that is not yet `killed`, send SIGTERM
(which sets the handle's `killed` flag) and schedule the 3000 ms
escalation timer; with a `killed` process emit an error; in both branches
the `audioDeviceProcess` field is then set to `null`.  With no process,
emit the no-process error.  Returns (state, events, signals sent now,
whether the escalation timer was scheduled). -/
def stop (st : MonitorState) : MonitorState × List Event × List Signal × Bool :=
  match st.audioDeviceProcess with
  | none => (st, [Event.error "Нет процесса для остановки."], [], false)
  | some p =>
    if p.killed = false then
      ({ st with audioDeviceProcess := none }, [], [Signal.SIGTERM], true)
    else
      ({ st with audioDeviceProcess := none },
       [Event.error "Процесс уже завершён."], [], false)

/-- The callback of `stop`'s 3000 ms `setTimeout`: it fires only when the
`audioDeviceProcess` field still holds a process whose `killed` flag is
`false` (`this.audioDeviceProcess?.killed === false`); in that case it
sends SIGKILL and emits `forceExit`.  Returns (state, events, signals). -/
def stopTimeout (st : MonitorState) : MonitorState × List Event × List Signal :=
  match st.audioDeviceProcess with
  | some p =>
    if p.killed = false then
      ({ st with audioDeviceProcess := some ⟨true⟩ },
       [Event.forceExit "Процесс был принудительно завершён."], [Signal.SIGKILL])
    else (st, [], [])
  | none => (st, [], [])

/-- The `AudioMonitorOptions` argument of the constructor; each field may
be left `undefined`. -/
structure AudioMonitorOptions where
  autoStart : Option Bool
  logger : Option Bool
  delay : Option Int
  step : Option Int
deriving DecidableEq, Repr

/-- The constructor's option handling: `delay` is
`options?.delay !== undefined ? Math.max(options.delay, 100) : 250` and
`step` is `options?.step || 5` (so a step of `0` is falsy and falls back
to the default `5`).  The freshly constructed instance has no process and
the placeholder snapshot. -/
def mkMonitor (options : Option AudioMonitorOptions) : MonitorState :=
  { audioDeviceProcess := none
    deviceInfo := initDeviceInfo
    deviceChange := defaultMask
    delay :=
      match options.bind (fun o => o.delay) with
      | some d => max d 100
      | none => 250
    step :=
      match options.bind (fun o => o.step) with
      | some s => if s ≠ 0 then s else 5
      | none => 5 }

/-- The argument vector `start()` passes to `spawn`:
`[this.delay.toString(), this.step.toString()]`. -/
def spawnArgs (st : MonitorState) : List String :=
  [toString st.delay, toString st.step]

/-- A state with a freshly spawned, not yet signalled child and the
initial snapshot and mask — the state right after a default-constructed
monitor's `start()`. -/
def runningState : MonitorState :=
  { audioDeviceProcess := some ⟨false⟩
    deviceInfo := initDeviceInfo
    deviceChange := defaultMask
    delay := 250
    step := 5 }

/-- A typed device snapshot (`IDevice`). -/
structure Device where
  id : String
  name : String
  volume : Int
  muted : Bool
deriving DecidableEq, Repr

/-- The JSON object a wire record for `d` decodes to, members in the
order the producer emits them. -/
def Device.toObj (d : Device) : Obj :=
  [("id", .str d.id), ("name", .str d.name),
   ("volume", .num d.volume), ("muted", .bool d.muted)]

/-! ### Concrete wire inputs from the specification's scenarios -/

/-- The spec's first-snapshot line. -/
def specLine1 : String :=
  "\x7b\"id\":\"a\",\"name\":\"Speakers\",\"volume\":50,\"muted\":false\x7d\n"

/-- The spec's second line (volume 50 → 60). -/
def specLine2 : String :=
  "\x7b\"id\":\"a\",\"name\":\"Speakers\",\"volume\":60,\"muted\":false\x7d\n"

/-- The first snapshot line cut before its last member: the leading chunk. -/
def splitChunkA : String :=
  "\x7b\"id\":\"a\",\"name\":\"Speakers\",\"volume\":50,"

/-- The trailing chunk completing `splitChunkA` to `specLine1`. -/
def splitChunkB : String := "\"muted\":false\x7d\n"

/-- A record carrying a field outside the known `IDevice` schema. -/
def extraFieldLine : String :=
  "\x7b\"id\":\"a\",\"name\":\"S\",\"volume\":50,\"muted\":false,\"extra\":1\x7d\n"

/-- The device of the spec's first-snapshot scenario. -/
def specDevice1 : Device := ⟨"a", "Speakers", 50, false⟩

/-! ### Lemmas about the pipeline -/

lemma changeRecords_append (a b : List Event) :
    changeRecords (a ++ b) = changeRecords a ++ changeRecords b :=
  List.filterMap_append a b _

lemma checkChange_masks_nil :
    ∀ (n : Obj) (dev : Obj) (m : Mask), changeMasks (checkChange n dev m).2 = []
  | [], _, _ => rfl
  | (k, v) :: rest, dev, m => by
    rw [checkChange]
    split
    · exact checkChange_masks_nil rest dev (setMask m k)
    · exact checkChange_masks_nil rest dev m

lemma checkChange_records_nil :
    ∀ (n : Obj) (dev : Obj) (m : Mask), changeRecords (checkChange n dev m).2 = []
  | [], _, _ => rfl
  | (k, v) :: rest, dev, m => by
    rw [checkChange]
    split
    · exact checkChange_records_nil rest dev (setMask m k)
    · exact checkChange_records_nil rest dev m

/-- One diff-and-emit cycle carries exactly one `change` event, whose mask
is the `checkChange` result. -/
lemma changeMasks_applyRecord (st : MonitorState) (o : Obj) :
    changeMasks (applyRecord st o).2 = [(checkChange o st.deviceInfo st.deviceChange).1] := by
  have h := checkChange_masks_nil o st.deviceInfo st.deviceChange
  simp only [changeMasks] at h ⊢
  simp [applyRecord, List.filterMap_append, h]

/-- One diff-and-emit cycle carries exactly one `change` event, holding
the decoded snapshot itself. -/
lemma changeRecords_applyRecord (st : MonitorState) (o : Obj) :
    changeRecords (applyRecord st o).2 = [o] := by
  have h := checkChange_records_nil o st.deviceInfo st.deviceChange
  simp only [changeRecords] at h ⊢
  simp [applyRecord, List.filterMap_append, h]

/-- Diffing a full snapshot against a full previous snapshot marks each
of the four known fields true exactly when the values differ. -/
lemma checkChange_device_mask (d p : Device) :
    (checkChange d.toObj p.toObj defaultMask).1 =
      [("id", p.id != d.id), ("name", p.name != d.name),
       ("volume", p.volume != d.volume), ("muted", p.muted != d.muted)] := by
  rcases d with ⟨di, dn, dv, dm⟩
  rcases p with ⟨pi, pn, pv, pm⟩
  by_cases h1 : pi = di <;> by_cases h2 : pn = dn <;>
    by_cases h3 : pv = dv <;> by_cases h4 : pm = dm <;>
    simp [checkChange, Device.toObj, defaultMask, lookupObj, setMask,
      h1, h2, h3, h4, bne]

/-- The `for...in` loop over a concatenation of key lists is the loop over
the first part followed by the loop over the second, mask threaded through. -/
lemma checkChange_append_mask (a b dev : Obj) (m : Mask) :
    (checkChange (a ++ b) dev m).1 = (checkChange b dev (checkChange a dev m).1).1 := by
  induction a generalizing m with
  | nil => rfl
  | cons kv rest ih =>
    rcases kv with ⟨k, v⟩
    rw [List.cons_append, checkChange, checkChange]
    split
    · exact ih (setMask m k)
    · exact ih m

/-- A key outside the known schema reads as `undefined` on a full snapshot. -/
lemma lookupObj_toObj_unknown (p : Device) (k : String)
    (h1 : k ≠ "id") (h2 : k ≠ "name") (h3 : k ≠ "volume") (h4 : k ≠ "muted") :
    lookupObj p.toObj k = none := by
  simp [Device.toObj, lookupObj, Ne.symm h1, Ne.symm h2, Ne.symm h3, Ne.symm h4]

/-! ### The claims -/

/-- C1, counterexample: the stdout handler parses each chunk in isolation
(`JSON.parse(data.toString())`, no framing buffer), so the spec's
newline-terminated record delivered as two chunks whose concatenation is
that one valid record yields no record at all and two decode errors —
the claim predicts the record is extracted regardless of boundaries. -/
theorem c1_split_record_dropped :
    splitChunkA ++ splitChunkB = specLine1 ∧
    parseJson specLine1 = some specDevice1.toObj ∧
    changeRecords (processChunks runningState [splitChunkA, splitChunkB]).2 = [] ∧
    errorCount (processChunks runningState [splitChunkA, splitChunkB]).2 = 2 := by
  refine ⟨rfl, by decide, by decide, by decide⟩

/-- C1, amended: records are extracted in order only when each delivered
chunk is exactly one complete record — if every chunk of the sequence
parses on its own, the emitted `change` events carry those records in
that order; a record split across chunks is not reassembled. -/
theorem c1_records_per_chunk (chunks : List String) :
    ∀ (objs : List Obj) (st : MonitorState),
      chunks.map parseJson = objs.map some →
      changeRecords (processChunks st chunks).2 = objs := by
  induction chunks with
  | nil =>
    intro objs st h
    cases objs with
    | nil => rfl
    | cons o os => simp at h
  | cons c rest ih =>
    intro objs st h
    cases objs with
    | nil => simp at h
    | cons o os =>
      simp only [List.map_cons, List.cons.injEq] at h
      have e1 : onStdoutData st c = applyRecord st o := by
        simp [onStdoutData, h.1]
      rw [processChunks, e1, changeRecords_append, changeRecords_applyRecord,
        ih os (applyRecord st o).1 h.2]
      rfl

/-- C1, witness: the two spec lines delivered one per chunk are extracted
in order. -/
theorem c1_records_per_chunk_witness :
    [specLine1, specLine2].map parseJson =
      [specDevice1.toObj, (Device.mk "a" "Speakers" 60 false).toObj].map some ∧
    changeRecords (processChunks runningState [specLine1, specLine2]).2 =
      [specDevice1.toObj, (Device.mk "a" "Speakers" 60 false).toObj] := by
  have hp : [specLine1, specLine2].map parseJson =
      [specDevice1.toObj, (Device.mk "a" "Speakers" 60 false).toObj].map some := by decide
  exact ⟨hp, c1_records_per_chunk _ _ _ hp⟩

/-- C2, counterexample: for the spec's own first-snapshot scenario the
emitted mask is `{id: true, name: true, volume: true, muted: false}` and
not the all-true mask the claim requires — the first snapshot is compared
against the initial placeholder, whose `muted` is already `false`. -/
theorem c2_first_mask_not_all_true :
    changeMasks (onStdoutData runningState specLine1).2 =
      [[("id", true), ("name", true), ("volume", true), ("muted", false)]] ∧
    changeMasks (onStdoutData runningState specLine1).2 ≠
      [[("id", true), ("name", true), ("volume", true), ("muted", true)]] := by
  refine ⟨by decide, by decide⟩

/-- C2, amended: the mask emitted with the first decoded snapshot marks a
known field true iff its value differs from the initial placeholder
`{ id: '', name: '', volume: 0, muted: false }` (not unconditionally). -/
theorem c2_first_mask_vs_placeholder (st : MonitorState) (d : Device)
    (hinfo : st.deviceInfo = initDeviceInfo) (hmask : st.deviceChange = defaultMask) :
    changeMasks (applyRecord st d.toObj).2 =
      [[("id", "" != d.id), ("name", "" != d.name),
        ("volume", (0 : Int) != d.volume), ("muted", false != d.muted)]] := by
  rw [changeMasks_applyRecord, hinfo, hmask]
  have h : initDeviceInfo = (Device.mk "" "" 0 false).toObj := rfl
  rw [h, checkChange_device_mask]

/-- C2, witness for the amended claim at the spec's scenario device. -/
theorem c2_first_mask_vs_placeholder_witness :
    changeMasks (applyRecord runningState (Device.mk "a" "Speakers" 50 false).toObj).2 =
      [[("id", "" != "a"), ("name", "" != "Speakers"),
        ("volume", (0 : Int) != 50), ("muted", false != false)]] :=
  c2_first_mask_vs_placeholder runningState (Device.mk "a" "Speakers" 50 false) rfl rfl

/-- C3: for successive successfully decoded snapshots S1 then S2, the mask
emitted with S2 marks each known field true iff its value in S2 differs
from its value in S1 under value equality. -/
theorem c3_mask_iff_field_differs (st : MonitorState) (d1 d2 : Device) :
    changeMasks (applyRecord (applyRecord st d1.toObj).1 d2.toObj).2 =
      [[("id", d1.id != d2.id), ("name", d1.name != d2.name),
        ("volume", d1.volume != d2.volume), ("muted", d1.muted != d2.muted)]] := by
  rw [changeMasks_applyRecord]
  show [(checkChange d2.toObj d1.toObj defaultMask).1] = _
  rw [checkChange_device_mask]

/-- C4, counterexample: `upVolume(-1)` and `upVolume(101)` write
`upVolume -1` / `upVolume 101` to the child's stdin and emit no error —
there is no range validation, contradicting the claim that out-of-range
steps fail and are never written. -/
theorem c4_out_of_range_written :
    (upVolume runningState (some (-1))).2.2 = ["upVolume -1\n"] ∧
    errorCount (upVolume runningState (some (-1))).2.1 = 0 ∧
    (upVolume runningState (some 101)).2.2 = ["upVolume 101\n"] ∧
    errorCount (upVolume runningState (some 101)).2.1 = 0 := by
  refine ⟨rfl, rfl, rfl, rfl⟩

/-- C4, amended: the volume-step methods perform no range validation —
with a running process any nonzero step (negative or above 100 included)
is written verbatim with no error, a step of 0 is falsy and writes the
bare default-step command; only `setStepVolume` (via `updateSettings`)
validates, writing iff the step lies in (0, 100]. -/
theorem c4_step_commands_unvalidated (st : MonitorState) (p : ChildProcess) (s : Int)
    (hp : st.audioDeviceProcess = some p) :
    (s ≠ 0 →
      (upVolume st (some s)).2.2 = ["upVolume " ++ toString s ++ "\n"] ∧
      errorCount (upVolume st (some s)).2.1 = 0 ∧
      (downVolume st (some s)).2.2 = ["downVolume " ++ toString s ++ "\n"]) ∧
    (upVolume st (some 0)).2.2 = ["upVolume\n"] ∧
    ((setStepVolume st s).2.2 ≠ [] ↔ 0 < s ∧ s ≤ 100) := by
  refine ⟨fun hs => ⟨?_, ?_, ?_⟩, ?_, ?_⟩
  · simp [upVolume, hp, hs]
  · simp [upVolume, hp, hs, errorCount]
  · simp [downVolume, hp, hs]
  · simp [upVolume, hp]
  · by_cases h : 0 < s ∧ s ≤ 100 <;> simp [setStepVolume, hp, h]

/-- C4, witness for the amended claim at step `-1`. -/
theorem c4_step_commands_unvalidated_witness :
    ((upVolume runningState (some (-1))).2.2 = ["upVolume " ++ toString (-1 : Int) ++ "\n"] ∧
      errorCount (upVolume runningState (some (-1))).2.1 = 0 ∧
      (downVolume runningState (some (-1))).2.2 = ["downVolume " ++ toString (-1 : Int) ++ "\n"]) ∧
    ((setStepVolume runningState (-1)).2.2 ≠ [] ↔ 0 < (-1 : Int) ∧ (-1 : Int) ≤ 100) :=
  ⟨(c4_step_commands_unvalidated runningState ⟨false⟩ (-1) rfl).1 (by decide),
   (c4_step_commands_unvalidated runningState ⟨false⟩ (-1) rfl).2.2⟩

/-- C5: the forced-kill escalation can never fire — `stop()` on a running
process sends SIGTERM (setting the handle's `killed` flag), schedules the
3000 ms timer, and nulls `audioDeviceProcess`; when the timer fires, the
guard `this.audioDeviceProcess?.killed === false` is false, so no SIGKILL
is ever sent and no `forceExit` event is ever emitted, although the claim
(and the code's evident intent) requires exactly one. -/
theorem c5_force_exit_never_fires :
    (stop runningState).2.2.1 = [Signal.SIGTERM] ∧
    (stop runningState).2.2.2 = true ∧
    (stop runningState).1.audioDeviceProcess = none ∧
    stopTimeout (stop runningState).1 = ((stop runningState).1, [], []) := by
  refine ⟨rfl, rfl, rfl, rfl⟩

/-- C6: a stdout record that fails to decode produces exactly one error
event naming the parse failure and no `change` event, and leaves the
monitor state untouched, so the remaining records are processed exactly
as if the malformed one had never arrived. -/
theorem c6_malformed_record_isolated (st : MonitorState) (chunk : String)
    (rest : List String) (h : parseJson chunk = none) :
    processChunks st (chunk :: rest) =
      ((processChunks st rest).1,
       Event.error ("Не удалось обработать данные: " ++ chunk) ::
         (processChunks st rest).2) := by
  rw [processChunks]
  simp [onStdoutData, h]

/-- C6, witness: the spec's `not-json` line followed by a valid line. -/
theorem c6_malformed_record_isolated_witness :
    processChunks runningState ("not-json\n" :: [specLine1]) =
      ((processChunks runningState [specLine1]).1,
       Event.error ("Не удалось обработать данные: " ++ "not-json\n") ::
         (processChunks runningState [specLine1]).2) :=
  c6_malformed_record_isolated runningState "not-json\n" [specLine1] (by decide)

/-- C7: decoding and emitting the same snapshot twice in a row yields,
with the second occurrence, the all-false change mask. -/
theorem c7_same_snapshot_all_false (st : MonitorState) (d : Device) :
    changeMasks (applyRecord (applyRecord st d.toObj).1 d.toObj).2 = [defaultMask] := by
  rw [changeMasks_applyRecord]
  show [(checkChange d.toObj d.toObj defaultMask).1] = _
  rw [checkChange_device_mask]
  simp [defaultMask]

/-- C8: `stop()` with no process (never started, or already torn down)
emits exactly one error event, sends no signal, schedules no timer and
leaves the state unchanged — and `stop` spawns nothing at all. -/
theorem c8_stop_without_process (st : MonitorState)
    (h : st.audioDeviceProcess = none) :
    stop st = (st, [Event.error "Нет процесса для остановки."], [], false) := by
  simp [stop, h]

/-- C8, witness: a never-started monitor and a torn-down one. -/
theorem c8_stop_without_process_witness :
    stop (mkMonitor none) =
      (mkMonitor none, [Event.error "Нет процесса для остановки."], [], false) ∧
    stop (stop runningState).1 =
      ((stop runningState).1, [Event.error "Нет процесса для остановки."], [], false) :=
  ⟨c8_stop_without_process (mkMonitor none) rfl,
   c8_stop_without_process (stop runningState).1 rfl⟩

/-- C9, counterexample: a first record carrying the unknown field `extra`
yields a change mask that contains the entry `("extra", true)` — the
`for...in` loop of `checkChange` writes unknown keys into the mask, so
the mask does not contain entries only for the known fields; the
snapshot itself is propagated in full, as the claim also says. -/
theorem c9_unknown_field_appears_in_mask :
    changeMasks (onStdoutData runningState extraFieldLine).2 =
      [[("id", true), ("name", true), ("volume", true), ("muted", false),
        ("extra", true)]] ∧
    ¬ (∀ m ∈ changeMasks (onStdoutData runningState extraFieldLine).2,
        ∀ kv ∈ m, kv.1 ∈ (["id", "name", "volume", "muted"] : List String)) ∧
    changeRecords (onStdoutData runningState extraFieldLine).2 =
      [(Device.mk "a" "S" 50 false).toObj ++ [("extra", JVal.num 1)]] := by
  refine ⟨by decide, by decide, by decide⟩

/-- C9, amended: unknown fields are not ignored for masking — a first
record extending a known snapshot with an unknown key `k` is emitted in
full, and its mask carries the four known entries (true iff differing
from the placeholder) followed by `(k, true)`. -/
theorem c9_unknown_field_masked_true (st : MonitorState) (d : Device)
    (k : String) (v : JVal)
    (hinfo : st.deviceInfo = initDeviceInfo) (hmask : st.deviceChange = defaultMask)
    (h1 : k ≠ "id") (h2 : k ≠ "name") (h3 : k ≠ "volume") (h4 : k ≠ "muted") :
    changeRecords (applyRecord st (d.toObj ++ [(k, v)])).2 = [d.toObj ++ [(k, v)]] ∧
    changeMasks (applyRecord st (d.toObj ++ [(k, v)])).2 =
      [[("id", "" != d.id), ("name", "" != d.name),
        ("volume", (0 : Int) != d.volume), ("muted", false != d.muted),
        (k, true)]] := by
  refine ⟨changeRecords_applyRecord st _, ?_⟩
  rw [changeMasks_applyRecord, hinfo, hmask]
  have h : initDeviceInfo = (Device.mk "" "" 0 false).toObj := rfl
  rw [h, checkChange_append_mask, checkChange_device_mask]
  rw [checkChange]
  rw [if_pos (by simp [lookupObj_toObj_unknown (Device.mk "" "" 0 false) k h1 h2 h3 h4])]
  rw [checkChange]
  simp [setMask, Ne.symm h1, Ne.symm h2, Ne.symm h3, Ne.symm h4]

/-- C9, witness for the amended claim at the `extra` field. -/
theorem c9_unknown_field_masked_true_witness :
    changeRecords (applyRecord runningState
        ((Device.mk "a" "S" 50 false).toObj ++ [("extra", JVal.num 1)])).2 =
      [(Device.mk "a" "S" 50 false).toObj ++ [("extra", JVal.num 1)]] ∧
    changeMasks (applyRecord runningState
        ((Device.mk "a" "S" 50 false).toObj ++ [("extra", JVal.num 1)])).2 =
      [[("id", "" != "a"), ("name", "" != "S"),
        ("volume", (0 : Int) != 50), ("muted", false != false),
        ("extra", true)]] :=
  c9_unknown_field_masked_true runningState (Device.mk "a" "S" 50 false)
    "extra" (JVal.num 1) rfl rfl (by decide) (by decide) (by decide) (by decide)

/-- C10: `upVolume(0)`/`downVolume(0)` take the falsy branch and write the
bare command line (so the default step applies), and a constructor step
option of 0 is falsy too, making the default step 5 the second spawn
argument. -/
theorem c10_zero_step_uses_default (st : MonitorState) (p : ChildProcess)
    (opts : AudioMonitorOptions) (hp : st.audioDeviceProcess = some p)
    (hs : opts.step = some 0) :
    (upVolume st (some 0)).2.2 = ["upVolume\n"] ∧
    (downVolume st (some 0)).2.2 = ["downVolume\n"] ∧
    (mkMonitor (some opts)).step = 5 ∧
    spawnArgs (mkMonitor (some opts)) = [toString (mkMonitor (some opts)).delay, "5"] := by
  refine ⟨?_, ?_, ?_, ?_⟩
  · simp [upVolume, hp]
  · simp [downVolume, hp]
  · simp [mkMonitor, hs]
  · simp [spawnArgs, mkMonitor, hs]
    rfl

/-- C10, witness at a running monitor and a step option of 0. -/
theorem c10_zero_step_uses_default_witness :
    (upVolume runningState (some 0)).2.2 = ["upVolume\n"] ∧
    (downVolume runningState (some 0)).2.2 = ["downVolume\n"] ∧
    (mkMonitor (some ⟨none, none, none, some 0⟩)).step = 5 ∧
    spawnArgs (mkMonitor (some ⟨none, none, none, some 0⟩)) =
      [toString (mkMonitor (some ⟨none, none, none, some 0⟩)).delay, "5"] :=
  c10_zero_step_uses_default runningState ⟨false⟩ ⟨none, none, none, some 0⟩ rfl rfl

end AfWinAudio
